import Mathlib

/-!
Shallow embedding of `src/test_hijack/clients/cli/feishu.py`: a single
script that loads `APP_ID` / `APP_SECRET` from the environment, builds a
`lark.Client`, and exposes `send_text_message`, which constructs a
`CreateMessageRequest` via the builder pattern of the SDK, issues it through
`client.im.v1.message.create`, and logs the outcome.

The vendor SDK (`lark_oapi`) is external to the repository; only the
surface the script touches is modelled here: the fluent builders for the
client and the create-message request, the JSON marshal utility, the
response object with its `success()` flag / `code` / `msg` / `log_id` /
`data` fields, and the `info` / `error` logger, the latter recorded as an
explicit effect trace.  The network itself is a parameter
(`net : lark.Client → CreateMessageRequest → Except ε CreateMessageResponse`),
so a transport-level exception is an `Except.error` and an HTTP reply is
an `Except.ok` response.

A second, purely syntactic model embeds the physical text of lines 28-35
of the file together with the explicit (backslash) and implicit
(bracket) line-joining rules of Python, because the statement there is in fact
ill-formed: line 34 closes the `request_body(...)` parenthesis without a
trailing backslash, so the bare `.build()` of line 35 starts a new logical
line that no Python statement can begin with.
-/

/-- Python values as far as this script marshals them: strings, ints,
`None`, and one-level dictionaries (everything the script ever passes to
`lark.JSON.marshal`: the `{"text": message}` body and the opaque response
payload). -/
inductive PyVal where
  | str (s : String)
  | int (n : Int)
  | pynull
deriving DecidableEq, Repr

/-- A Python object handed to the JSON marshaller. -/
inductive PyObj where
  | val (v : PyVal)
  | dict (fields : List (String × PyVal))
deriving DecidableEq, Repr

/-- JSON string escaping as `json.dumps` performs it for the characters
that can appear here. -/
def escapeChar (c : Char) : String :=
  if c = Char.ofNat 34 then "\\\""
  else if c = Char.ofNat 92 then "\\\\"
  else if c = Char.ofNat 10 then "\\n"
  else if c = Char.ofNat 13 then "\\r"
  else if c = Char.ofNat 9 then "\\t"
  else String.singleton c

def escapeString (s : String) : String :=
  String.join (s.data.map escapeChar)

def jsonQuote (s : String) : String :=
  "\"" ++ escapeString s ++ "\""

namespace lark

/-- Log verbosity levels of the SDK. -/
inductive LogLevel where
  | DEBUG
  | INFO
  | WARNING
  | ERROR
deriving DecidableEq, Repr

/-- The configured client handle: credentials plus log level, exactly the
fields the builder chain of the script sets.  Unset fields are `none`. -/
structure Client where
  app_id : Option String
  app_secret : Option String
  log_level : Option LogLevel
deriving DecidableEq, Repr

/-- The client builder: a client configuration under construction. -/
structure Client.Builder where
  cfg : Client
deriving DecidableEq, Repr

def Client.builder : Client.Builder :=
  ⟨⟨Option.none, Option.none, Option.none⟩⟩

def Client.Builder.app_id (b : Client.Builder) (v : Option String) : Client.Builder :=
  ⟨{ b.cfg with app_id := v }⟩

def Client.Builder.app_secret (b : Client.Builder) (v : Option String) : Client.Builder :=
  ⟨{ b.cfg with app_secret := v }⟩

def Client.Builder.log_level (b : Client.Builder) (v : LogLevel) : Client.Builder :=
  ⟨{ b.cfg with log_level := some v }⟩

def Client.Builder.build (b : Client.Builder) : Client :=
  b.cfg

namespace JSON

/-- Serialization of a leaf value. -/
def marshalVal : PyVal → String
  | PyVal.str s => jsonQuote s
  | PyVal.int n => toString n
  | PyVal.pynull => "null"

/-- `lark.JSON.marshal(obj)` / `lark.JSON.marshal(obj, indent=4)`:
`json.dumps`-style serialization, compact when `indent` is `none`,
pretty-printed with `indent` spaces per level otherwise. -/
def marshal (obj : PyObj) (indent : Option Nat) : String :=
  match obj with
  | PyObj.val v => marshalVal v
  | PyObj.dict fields =>
    match indent with
    | Option.none =>
      "\x7b" ++
        String.intercalate ", "
          (fields.map (fun f => jsonQuote f.1 ++ ": " ++ marshalVal f.2)) ++
        "\x7d"
    | Option.some n =>
      if fields.isEmpty then "\x7b\x7d"
      else
        "\x7b\n" ++
          String.intercalate ",\n"
            (fields.map (fun f =>
              String.mk (List.replicate n ' ') ++ jsonQuote f.1 ++ ": " ++ marshalVal f.2)) ++
          "\n\x7d"

end JSON

end lark

/-- The request body object of the create-message model of the SDK; fields are
`none` until the builder sets them. -/
structure CreateMessageRequestBody where
  receive_id : Option String
  msg_type : Option String
  content : Option String
deriving DecidableEq, Repr

structure CreateMessageRequestBody.Builder where
  body : CreateMessageRequestBody
deriving DecidableEq, Repr

def CreateMessageRequestBody.builder : CreateMessageRequestBody.Builder :=
  ⟨⟨Option.none, Option.none, Option.none⟩⟩

def CreateMessageRequestBody.Builder.receive_id
    (b : CreateMessageRequestBody.Builder) (v : String) : CreateMessageRequestBody.Builder :=
  ⟨{ b.body with receive_id := some v }⟩

def CreateMessageRequestBody.Builder.msg_type
    (b : CreateMessageRequestBody.Builder) (v : String) : CreateMessageRequestBody.Builder :=
  ⟨{ b.body with msg_type := some v }⟩

def CreateMessageRequestBody.Builder.content
    (b : CreateMessageRequestBody.Builder) (v : String) : CreateMessageRequestBody.Builder :=
  ⟨{ b.body with content := some v }⟩

def CreateMessageRequestBody.Builder.build
    (b : CreateMessageRequestBody.Builder) : CreateMessageRequestBody :=
  b.body

/-- The create-message request: recipient-id type plus the body above. -/
structure CreateMessageRequest where
  receive_id_type : Option String
  request_body : Option CreateMessageRequestBody
deriving DecidableEq, Repr

structure CreateMessageRequest.Builder where
  req : CreateMessageRequest
deriving DecidableEq, Repr

def CreateMessageRequest.builder : CreateMessageRequest.Builder :=
  ⟨⟨Option.none, Option.none⟩⟩

def CreateMessageRequest.Builder.receive_id_type
    (b : CreateMessageRequest.Builder) (v : String) : CreateMessageRequest.Builder :=
  ⟨{ b.req with receive_id_type := some v }⟩

def CreateMessageRequest.Builder.request_body
    (b : CreateMessageRequest.Builder) (v : CreateMessageRequestBody) : CreateMessageRequest.Builder :=
  ⟨{ b.req with request_body := some v }⟩

def CreateMessageRequest.Builder.build
    (b : CreateMessageRequest.Builder) : CreateMessageRequest :=
  b.req

/-- The create-message response of the SDK as the script consumes it:
`success()` flag, numeric `code`, human-readable `msg`, correlation
`log_id`, and the opaque `data` payload. -/
structure CreateMessageResponse where
  success : Bool
  code : Int
  msg : String
  log_id : String
  data : PyObj
deriving DecidableEq, Repr

/-- The request object constructed inside `send_text_message` (lines
28-35): the builder chain
`CreateMessageRequest.builder().receive_id_type(receive_id_type)
.request_body(CreateMessageRequestBody.builder().receive_id(receive_id)
.msg_type("text").content(lark.JSON.marshal({"text": message})).build())
.build()`, hoisted out of the function so theorems can name it. -/
def request (receive_id_type receive_id message : String) : CreateMessageRequest :=
  (((CreateMessageRequest.builder.receive_id_type receive_id_type).request_body
      ((((CreateMessageRequestBody.builder.receive_id receive_id).msg_type "text").content
          (lark.JSON.marshal (PyObj.dict [("text", PyVal.str message)]) Option.none)).build))).build

/-- Module-level state of the script after the top-level statements of
lines 10-18 run: the two credential reads and the configured client. -/
structure ModuleState where
  APP_ID : Option String
  APP_SECRET : Option String
  client : lark.Client
deriving DecidableEq, Repr

/-- Observable events of module initialisation: an `os.getenv` read and
the client construction (`lark.Client.builder()...build()`). -/
inductive ModuleEvent where
  | getenvRead (name : String)
  | clientBuild
deriving DecidableEq, Repr

/-- Top-level statements of lines 10-18, as a function of the process
environment (`env name = none` models an unset variable, as `os.getenv`
returns `None`): `APP_ID = os.getenv("APP_ID")`,
`APP_SECRET = os.getenv("APP_SECRET")`, then the client builder chain,
executed once each, in order, with the events they perform recorded. -/
def loadModule (env : String → Option String) : ModuleState × List ModuleEvent :=
  let APP_ID := env "APP_ID"
  let APP_SECRET := env "APP_SECRET"
  let client :=
    (((lark.Client.builder.app_id APP_ID).app_secret APP_SECRET).log_level
        lark.LogLevel.DEBUG).build
  (⟨APP_ID, APP_SECRET, client⟩,
   [ModuleEvent.getenvRead "APP_ID", ModuleEvent.getenvRead "APP_SECRET",
    ModuleEvent.clientBuild])

/-- Observable effects of one `send_text_message` call: the request
handed to `client.im.v1.message.create`, and the logger lines. -/
inductive Effect where
  | clientCreate (c : lark.Client) (req : CreateMessageRequest)
  | logError (s : String)
  | logInfo (s : String)
deriving DecidableEq, Repr

def Effect.isErrorLog : Effect → Bool
  | Effect.logError _ => true
  | _ => false

def Effect.isInfoLog : Effect → Bool
  | Effect.logInfo _ => true
  | _ => false

/-- `send_text_message(receive_id_type, receive_id, message)` (lines
20-46).  `net` is the external transport behind
`client.im.v1.message.create`: `Except.error e` is a transport-level
exception, `Except.ok response` an HTTP reply.  The result is the list
of effects performed, the control outcome (`Except.ok ()` = the function
returns normally with no value, `Except.error e` = exception `e` escapes
the function, which installs no handler), and the module state after the
call.  On a non-success response it logs the f-string of line 43 and
returns; on success it logs `lark.JSON.marshal(response.data, indent=4)`. -/
def send_text_message {ε : Type} (net : lark.Client → CreateMessageRequest → Except ε CreateMessageResponse)
    (st : ModuleState) (receive_id_type receive_id message : String) :
    (List Effect × Except ε Unit) × ModuleState :=
  match net st.client (request receive_id_type receive_id message) with
  | Except.error e =>
    (([Effect.clientCreate st.client (request receive_id_type receive_id message)],
      Except.error e), st)
  | Except.ok response =>
    if !response.success then
      (([Effect.clientCreate st.client (request receive_id_type receive_id message),
         Effect.logError ("client.im.v1.message.create failed, code: " ++
           toString response.code ++ ", msg: " ++ response.msg ++
           ", log_id: " ++ response.log_id)],
        Except.ok ()), st)
    else
      (([Effect.clientCreate st.client (request receive_id_type receive_id message),
         Effect.logInfo (lark.JSON.marshal response.data (some 4))],
        Except.ok ()), st)

/-- State of the character-level scan of one physical source line:
current bracket depth, whether we are inside a string literal (and which
quote opened it), whether the previous character was a string escape, and
whether a `#` comment has started. -/
structure ScanSt where
  depth : Int
  inStr : Option Char
  esc : Bool
  comment : Bool
deriving DecidableEq, Repr

/-- One step of the scan, per the Python tokenizer: inside a string only
the matching quote (unescaped) ends it; a `#` outside a string starts a
comment that consumes the rest of the line; outside strings and comments,
`(` `[` and the open brace raise the bracket depth and `)` `]` and the
close brace lower it. -/
def scanChar (st : ScanSt) (c : Char) : ScanSt :=
  if st.comment then st
  else
    match st.inStr with
    | Option.some q =>
      if st.esc then { st with esc := false }
      else if c = Char.ofNat 92 then { st with esc := true }
      else if c = q then { st with inStr := Option.none, esc := false }
      else st
    | Option.none =>
      if c = '#' then { st with comment := true }
      else if c = Char.ofNat 34 ∨ c = Char.ofNat 39 then { st with inStr := some c }
      else if c = '(' ∨ c = '[' ∨ c = Char.ofNat 123 then { st with depth := st.depth + 1 }
      else if c = ')' ∨ c = ']' ∨ c = Char.ofNat 125 then { st with depth := st.depth - 1 }
      else st

/-- Scan a whole physical line starting at bracket depth `depth`. -/
def scanLine (depth : Int) (line : String) : ScanSt :=
  line.data.foldl scanChar ⟨depth, Option.none, false, false⟩

def endsWithBackslash (line : String) : Bool :=
  line.data.getLast? = some (Char.ofNat 92)

/-- After scanning a physical line: the bracket depth carried to the next
line, and whether this line joins with the next one — implicitly while
bracket depth is positive, or explicitly when it ends in a backslash that
is neither inside a string nor inside a comment. -/
def joinsNextLine (depth : Int) (line : String) : Int × Bool :=
  let st := scanLine depth line
  (st.depth,
   st.depth > 0 ∨ (!st.comment ∧ st.inStr.isNone ∧ endsWithBackslash line))

/-- For each physical line, whether it begins a new logical line (true
for the first line, and for any line not joined to its predecessor). -/
def lineStarts (lines : List String) : List Bool :=
  (lines.foldl
    (fun (acc : List Bool × Int × Bool) line =>
      let (d2, j) := joinsNextLine acc.2.1 line
      (acc.1 ++ [!acc.2.2], d2, j))
    ([], 0, false)).1

def stripIndent (s : String) : String :=
  String.mk (s.data.dropWhile (fun c => c = ' '))

/-- Whether the first token of a logical line can begin a Python statement: a
lone `.` (DOT) begins no statement; only the three-dot `...` (ELLIPSIS)
token lets a statement start with a dot character. -/
def validStmtStart (s : String) : Bool :=
  !(s.data.head? = some '.') ∨
    s.data.take 3 = [Char.ofNat 46, Char.ofNat 46, Char.ofNat 46]

/-- A fragment of physical lines passes this check only if every logical
line it opens starts with a token that can begin a statement; if any
logical line fails, the CPython compiler raises `SyntaxError` for the file
and no statement of the module is ever executed. -/
def fragmentStmtStartsOk (lines : List String) : Bool :=
  ((lineStarts lines).zip lines).all
    (fun p => !p.1 ∨ validStmtStart (stripIndent p.2))

/-- The verbatim physical lines 28-35 of
`src/test_hijack/clients/cli/feishu.py`: the `request = ...` builder
chain inside `send_text_message`. -/
def send_text_message_lines : List String :=
  ["    request: CreateMessageRequest = CreateMessageRequest.builder() \x5c",
   "        .receive_id_type(receive_id_type) \x5c",
   "        .request_body(CreateMessageRequestBody.builder()",
   "                      .receive_id(receive_id)",
   "                      .msg_type(\"text\")",
   "                      .content(lark.JSON.marshal(\x7b\"text\": message\x7d))",
   "                      .build())",
   "        .build()"]

/-- Whether the module parses: CPython compiles the whole file before
running any of it, so the ill-formed statement at lines 28-35 decides
the fate of the entire module. -/
def feishuParses : Bool :=
  fragmentStmtStartsOk send_text_message_lines

/-- Module import/execution: the top-level statements (lines 1-18) run
only if the file compiles; on a `SyntaxError` nothing is executed and no
name — `send_text_message` included — is ever defined. -/
def feishuModuleLoad (env : String → Option String) :
    Option (ModuleState × List ModuleEvent) :=
  if feishuParses then some (loadModule env) else Option.none

/-- The two instructional lines of the `__main__` block (lines 57-58). -/
def mainPrintLines : List String :=
  ["这是一个飞书客户端示例。",
   "请在代码中取消注释并填入正确的 receive_id_type 和 receive_id 来发送消息。"]

/-- Standard output of running the script directly with no recipient
arguments: the two prints of the `__main__` block — all example
`send_text_message` invocations are commented out — provided the file
compiles; on a `SyntaxError` nothing is printed. -/
def feishuScriptOutput : List String :=
  if feishuParses then mainPrintLines else []

/-- Network calls performed by running the script directly: none in the
`__main__` block even when the file compiles (every send is commented
out), and none at all when it does not. -/
def feishuScriptNetworkCalls : List CreateMessageRequest :=
  []

/-- The mocked non-success response of the spec scenario: code `400`,
message `"bad request"`, correlation id `"abc123"`. -/
def mock_response_400 : CreateMessageResponse :=
  { success := false, code := 400, msg := "bad request", log_id := "abc123",
    data := PyObj.dict [] }

/-- The mocked success response of the spec scenario: payload
`{"message_id": "om_1"}`. -/
def mock_response_om1 : CreateMessageResponse :=
  { success := true, code := 0, msg := "success", log_id := "lid_ok",
    data := PyObj.dict [("message_id", PyVal.str "om_1")] }

/-- A transport that always returns the mocked 400 response. -/
def mock_net_400 : lark.Client → CreateMessageRequest → Except Unit CreateMessageResponse :=
  fun _ _ => Except.ok mock_response_400

/-- A transport that always returns the mocked success response. -/
def mock_net_om1 : lark.Client → CreateMessageRequest → Except Unit CreateMessageResponse :=
  fun _ _ => Except.ok mock_response_om1

/-- A transport that always raises a transport-level exception. -/
def mock_net_raise : lark.Client → CreateMessageRequest → Except String CreateMessageResponse :=
  fun _ _ => Except.error "ConnectionError: network unreachable"

/-- Module state loaded under an empty process environment. -/
def st0 : ModuleState := (loadModule (fun _ => Option.none)).1

set_option maxRecDepth 8000

/-- Whatever the transport does, `send_text_message` first hands the
client exactly the request built by the lines 28-35 chain and leaves the
module state unchanged. -/
theorem send_shape {ε : Type}
    (net : lark.Client → CreateMessageRequest → Except ε CreateMessageResponse)
    (st : ModuleState) (t r m : String) :
    ∃ rest res, send_text_message net st t r m =
      ((Effect.clientCreate st.client (request t r m) :: rest, res), st) := by
  unfold send_text_message
  cases net st.client (request t r m) with
  | error e => exact ⟨_, _, rfl⟩
  | ok response =>
    dsimp only
    cases hs : response.success with
    | false => exact ⟨_, _, rfl⟩
    | true => exact ⟨_, _, rfl⟩

/-- C1: for every call `send_text_message(recipient_id_type,
recipient_id, message)`, the constructed Send Request body has its
`msg_type` field exactly `"text"` and its `content` field equal to the
JSON serialization of an object whose single `text` key maps exactly to
the `message` argument; that request is what reaches the client. -/
theorem send_text_message_msg_type_and_content {ε : Type}
    (net : lark.Client → CreateMessageRequest → Except ε CreateMessageResponse)
    (st : ModuleState) (recipient_id_type recipient_id message : String) :
    ∃ rest res body,
      send_text_message net st recipient_id_type recipient_id message =
        ((Effect.clientCreate st.client (request recipient_id_type recipient_id message) :: rest,
          res), st)
      ∧ (request recipient_id_type recipient_id message).request_body = some body
      ∧ body.msg_type = some "text"
      ∧ body.content =
          some (lark.JSON.marshal (PyObj.dict [("text", PyVal.str message)]) Option.none) := by
  obtain ⟨rest, res, h⟩ := send_shape net st recipient_id_type recipient_id message
  exact ⟨rest, res, _, h, rfl, rfl, rfl⟩

/-- C2: whenever the client returns a response with `success() == false`,
`send_text_message` emits exactly one error log entry — the line-43
f-string, which contains the code, the message, and the log id of the
response — and returns normally (`Except.ok ()`): the failure is not
propagated to the caller. -/
theorem send_text_message_failure_logged_not_raised {ε : Type}
    (net : lark.Client → CreateMessageRequest → Except ε CreateMessageResponse)
    (st : ModuleState) (t r m : String) (response : CreateMessageResponse)
    (hnet : net st.client (request t r m) = Except.ok response)
    (hfail : response.success = false) :
    ∃ s,
      send_text_message net st t r m =
        (([Effect.clientCreate st.client (request t r m), Effect.logError s],
          Except.ok ()), st)
      ∧ ((send_text_message net st t r m).1.1.filter Effect.isErrorLog) = [Effect.logError s]
      ∧ ∃ a b c, s = a ++ toString response.code ++ b ++ response.msg ++ c ++ response.log_id := by
  have h : send_text_message net st t r m =
      (([Effect.clientCreate st.client (request t r m),
         Effect.logError ("client.im.v1.message.create failed, code: " ++
           toString response.code ++ ", msg: " ++ response.msg ++
           ", log_id: " ++ response.log_id)],
        Except.ok ()), st) := by
    unfold send_text_message
    rw [hnet]
    dsimp only
    rw [hfail]
    rfl
  refine ⟨_, h, by rw [h]; rfl, "client.im.v1.message.create failed, code: ",
    ", msg: ", ", log_id: ", rfl⟩

/-- Witness for C2 at the mocked scenario of the spec: code `400`,
message `"bad request"`, log id `"abc123"`. -/
theorem c2_witness :
    ∃ s,
      send_text_message mock_net_400 st0 "chat_id" "oc_test" "hello" =
        (([Effect.clientCreate st0.client (request "chat_id" "oc_test" "hello"),
           Effect.logError s], Except.ok ()), st0)
      ∧ ((send_text_message mock_net_400 st0 "chat_id" "oc_test" "hello").1.1.filter
          Effect.isErrorLog) = [Effect.logError s]
      ∧ ∃ a b c, s = a ++ toString mock_response_400.code ++ b ++ mock_response_400.msg ++ c ++
          mock_response_400.log_id :=
  send_text_message_failure_logged_not_raised mock_net_400 st0 "chat_id" "oc_test" "hello"
    mock_response_400 rfl rfl

/-- C3: whenever the client returns a response with `success() == true`,
`send_text_message` emits exactly one info log entry whose content is the
JSON-serialized `data` payload (`lark.JSON.marshal(response.data,
indent=4)`), and returns normally with no return value. -/
theorem send_text_message_success_logged_info {ε : Type}
    (net : lark.Client → CreateMessageRequest → Except ε CreateMessageResponse)
    (st : ModuleState) (t r m : String) (response : CreateMessageResponse)
    (hnet : net st.client (request t r m) = Except.ok response)
    (hsucc : response.success = true) :
    send_text_message net st t r m =
      (([Effect.clientCreate st.client (request t r m),
         Effect.logInfo (lark.JSON.marshal response.data (some 4))],
        Except.ok ()), st)
    ∧ ((send_text_message net st t r m).1.1.filter Effect.isInfoLog) =
        [Effect.logInfo (lark.JSON.marshal response.data (some 4))] := by
  have h : send_text_message net st t r m =
      (([Effect.clientCreate st.client (request t r m),
         Effect.logInfo (lark.JSON.marshal response.data (some 4))],
        Except.ok ()), st) := by
    unfold send_text_message
    rw [hnet]
    dsimp only
    rw [hsucc]
    rfl
  exact ⟨h, by rw [h]; rfl⟩

/-- Witness for C3 at the mocked scenario of the spec: payload
`{"message_id": "om_1"}`, whose indent-4 serialization is spelled out
concretely. -/
theorem c3_witness :
    send_text_message mock_net_om1 st0 "chat_id" "oc_test" "hello" =
      (([Effect.clientCreate st0.client (request "chat_id" "oc_test" "hello"),
         Effect.logInfo "\x7b\n    \"message_id\": \"om_1\"\n\x7d"],
        Except.ok ()), st0)
    ∧ ((send_text_message mock_net_om1 st0 "chat_id" "oc_test" "hello").1.1.filter
        Effect.isInfoLog) = [Effect.logInfo "\x7b\n    \"message_id\": \"om_1\"\n\x7d"] :=
  send_text_message_success_logged_info mock_net_om1 st0 "chat_id" "oc_test" "hello"
    mock_response_om1 rfl rfl

/-- C4: the claim says a direct run with no recipient arguments prints
exactly the two instructional lines and makes zero network calls; in
fact the file fails to compile (see C5), so the direct run prints
nothing at all — it does, vacuously, make zero network calls. -/
theorem feishu_direct_run_prints_nothing :
    feishuScriptOutput = [] ∧ feishuScriptOutput ≠ mainPrintLines
    ∧ feishuScriptNetworkCalls = [] :=
  ⟨by decide, by decide, rfl⟩

/-- C5: the source file is not syntactically well-formed Python: within
lines 28-35 the logical line that starts at line 28 ends at line 34
(bracket depth returns to zero and there is no trailing backslash), the
next logical line is line 35, whose first token is a bare `.` — no
Python statement can begin with it — so the module fails to parse and,
for every environment, module load yields nothing: `send_text_message`
is never defined and the `__main__` block never runs. -/
theorem feishu_builder_chain_syntax_error :
    lineStarts send_text_message_lines = [true, false, false, false, false, false, false, true]
    ∧ stripIndent (send_text_message_lines.getD 7 "") = ".build()"
    ∧ validStmtStart (stripIndent (send_text_message_lines.getD 7 "")) = false
    ∧ feishuParses = false
    ∧ ∀ env, feishuModuleLoad env = Option.none := by
  refine ⟨by decide, by decide, by decide, by decide, ?_⟩
  intro env
  unfold feishuModuleLoad
  have h : feishuParses = false := by decide
  rw [h]
  rfl

/-- C6: the call `send_text_message("chat_id", "oc_test", "hello")`
builds a request with `receive_id_type = "chat_id"`, body
`receive_id = "oc_test"`, and body `content` equal to the JSON
serialization of `{"text": "hello"}` — and that very request is the one
handed to `client.im.v1.message.create`. -/
theorem send_text_message_chat_id_oc_test_hello :
    request "chat_id" "oc_test" "hello" =
      { receive_id_type := some "chat_id",
        request_body := some
          { receive_id := some "oc_test", msg_type := some "text",
            content := some "\x7b\"text\": \"hello\"\x7d" } }
    ∧ ∀ {ε : Type} (net : lark.Client → CreateMessageRequest → Except ε CreateMessageResponse)
        (st : ModuleState),
        (send_text_message net st "chat_id" "oc_test" "hello").1.1.head? =
          some (Effect.clientCreate st.client (request "chat_id" "oc_test" "hello")) := by
  refine ⟨by decide, ?_⟩
  intro ε net st
  obtain ⟨rest, res, h⟩ := send_shape net st "chat_id" "oc_test" "hello"
  rw [h]
  rfl

/-- C7: when the underlying client call raises a transport-level
exception, that exception propagates uncaught out of
`send_text_message` — the result is `Except.error e` itself, and no
error or info line is logged: the operation installs no local handler
around the remote call. -/
theorem send_text_message_transport_error_propagates {ε : Type}
    (net : lark.Client → CreateMessageRequest → Except ε CreateMessageResponse)
    (st : ModuleState) (t r m : String) (e : ε)
    (h : net st.client (request t r m) = Except.error e) :
    send_text_message net st t r m =
      (([Effect.clientCreate st.client (request t r m)], Except.error e), st)
    ∧ ((send_text_message net st t r m).1.1.filter Effect.isErrorLog) = []
    ∧ ((send_text_message net st t r m).1.1.filter Effect.isInfoLog) = [] := by
  have hh : send_text_message net st t r m =
      (([Effect.clientCreate st.client (request t r m)], Except.error e), st) := by
    unfold send_text_message
    rw [h]
  exact ⟨hh, by rw [hh]; rfl, by rw [hh]; rfl⟩

/-- Witness for C7 at a concrete raising transport. -/
theorem c7_witness :
    send_text_message mock_net_raise st0 "open_id" "ou_x" "hi" =
      (([Effect.clientCreate st0.client (request "open_id" "ou_x" "hi")],
        Except.error "ConnectionError: network unreachable"), st0)
    ∧ ((send_text_message mock_net_raise st0 "open_id" "ou_x" "hi").1.1.filter
        Effect.isErrorLog) = []
    ∧ ((send_text_message mock_net_raise st0 "open_id" "ou_x" "hi").1.1.filter
        Effect.isInfoLog) = [] :=
  send_text_message_transport_error_propagates mock_net_raise st0 "open_id" "ou_x" "hi"
    "ConnectionError: network unreachable" rfl

/-- C9: module load reads `APP_ID` and `APP_SECRET` exactly once each and
builds the client exactly once, the loaded client holds exactly the two
environment values with `DEBUG` log level, and every
`send_text_message` call uses the module client and returns the module
state unchanged. -/
theorem module_env_read_once_client_built_once_state_preserved
    (env : String → Option String) {ε : Type}
    (net : lark.Client → CreateMessageRequest → Except ε CreateMessageResponse)
    (st : ModuleState) (t r m : String) :
    (loadModule env).2 =
      [ModuleEvent.getenvRead "APP_ID", ModuleEvent.getenvRead "APP_SECRET",
       ModuleEvent.clientBuild]
    ∧ ((loadModule env).2.count (ModuleEvent.getenvRead "APP_ID")) = 1
    ∧ ((loadModule env).2.count (ModuleEvent.getenvRead "APP_SECRET")) = 1
    ∧ ((loadModule env).2.count ModuleEvent.clientBuild) = 1
    ∧ (loadModule env).1.APP_ID = env "APP_ID"
    ∧ (loadModule env).1.APP_SECRET = env "APP_SECRET"
    ∧ (loadModule env).1.client =
        { app_id := env "APP_ID", app_secret := env "APP_SECRET",
          log_level := some lark.LogLevel.DEBUG }
    ∧ (send_text_message net st t r m).2 = st
    ∧ (send_text_message net st t r m).1.1.head? =
        some (Effect.clientCreate st.client (request t r m)) := by
  obtain ⟨rest, res, h⟩ := send_shape net st t r m
  refine ⟨rfl, rfl, rfl, rfl, rfl, rfl, rfl, by rw [h], by rw [h]; rfl⟩

/-- C10: `send_text_message` performs no local validation: for every
string `receive_id_type` (the empty string and values outside the
enumerated kinds included) and all strings `receive_id` and `message`
(empty ones included), the request carries those values verbatim and is
handed to the client without local rejection. -/
theorem send_text_message_no_local_validation {ε : Type}
    (net : lark.Client → CreateMessageRequest → Except ε CreateMessageResponse)
    (st : ModuleState) (receive_id_type receive_id message : String) :
    (request receive_id_type receive_id message).receive_id_type = some receive_id_type
    ∧ (∃ body, (request receive_id_type receive_id message).request_body = some body
        ∧ body.receive_id = some receive_id
        ∧ body.content =
            some (lark.JSON.marshal (PyObj.dict [("text", PyVal.str message)]) Option.none))
    ∧ ∃ rest res,
        send_text_message net st receive_id_type receive_id message =
          ((Effect.clientCreate st.client (request receive_id_type receive_id message) :: rest,
            res), st) :=
  ⟨rfl, ⟨_, rfl, rfl, rfl⟩, send_shape net st receive_id_type receive_id message⟩
